import Mathlib

/-!
Verification development for the otagent message-routing core
(`src/Agent.cpp` of Open-Transactions/otagent).

The embedding models byte strings (`opentxs::Data`, `std::string`) as Lean
`String`s with bytewise equality, `std::map` as association lists with unique
keys (inserted via `emplace`, which inserts only when the key is absent), and
every `OT_ASSERT` / throwing access as an `Except AgentError` error result.
External collaborators (the opentxs engine, Z85 encoding) are parameters.
-/

set_option autoImplicit false

/-- Errors a handler can raise: a failed `OT_ASSERT`, a throwing
`at(0)` / repeated-field access, or a missing `ptree` path. -/
inductive AgentError where
  | assertFailed (msg : String)
  | outOfRange
  | ptreeBadPath
  deriving DecidableEq

/-- Lookup in an association list, mirroring `std::map::find`. -/
def mapFind {α : Type} (m : List (String × α)) (k : String) : Option α :=
  match m with
  | [] => none
  | (k0, v) :: rest => if k0 = k then some v else mapFind rest k

/-- Insertion mirroring `std::map::emplace`: inserts only when the key is
absent, otherwise leaves the map unchanged. -/
def mapEmplace {α : Type} (m : List (String × α)) (k : String) (v : α) :
    List (String × α) :=
  match mapFind m k with
  | some _ => m
  | none => (k, v) :: m

/-- Overwrite-or-insert, mirroring `ptree::put_value` on an existing node. -/
def mapSet {α : Type} (m : List (String × α)) (k : String) (v : α) :
    List (String × α) :=
  match m with
  | [] => [(k, v)]
  | (k0, v0) :: rest => if k0 = k then (k, v) :: rest else (k0, v0) :: mapSet rest k v

/-- Removal of the entry for a key, mirroring `std::map::erase(iterator)`
on a map with unique keys. -/
def mapErase {α : Type} (m : List (String × α)) (k : String) :
    List (String × α) :=
  match m with
  | [] => []
  | (k0, v0) :: rest => if k0 = k then rest else (k0, v0) :: mapErase rest k

/-- The RPC command discriminants of `proto::RPCCommandType` that appear in
the `switch` of `Agent::backend_handler`. -/
inductive RPCCommandType where
  | addClientSession
  | addServerSession
  | createNym
  | registerNym
  | issueUnitDefinition
  | createAccount
  | createCompatibleAccount
  | sendPayment
  | acceptPendingPayments
  | listClientSessions
  | listServerSessions
  | importHDSeed
  | listHDSeeds
  | getHDSeed
  | listNyms
  | getNym
  | addClaim
  | deleteClaim
  | importServerContract
  | listServerContracts
  | createUnitDefinition
  | listUnitDefinitions
  | listAccounts
  | getAccountBalance
  | getAccountActivity
  | moveFunds
  | addContact
  | listContacts
  | getContact
  | addContactClaim
  | deleteContactClaim
  | verifyClaim
  | acceptVerification
  | sendContactMessage
  | getContactActivity
  | getServerContract
  | getPendingPayments
  | getCompatibleAccounts
  | getWorkflow
  | getServerPassword
  | getAdminNym
  | getUnitDefinition
  | getTransactionData
  | lookupAccountID
  | renameAccount
  | errorCommand
  deriving DecidableEq

/-- Response status codes from `proto::RPCResponseCode` used by the handler
(`RPCRESPONSE_SUCCESS`, `RPCRESPONSE_QUEUED`) plus representative others. -/
inductive RPCResponseCode where
  | invalid
  | success
  | badSession
  | queued
  | unnecessary
  | retry
  | errorCode
  deriving DecidableEq

/-- The fields of `proto::RPCCommand` that `Agent::backend_handler` reads.
`acceptpendingpayment` holds the `destinationaccount` field of each
repeated `AcceptPendingPayment` entry. -/
structure RPCCommand where
  type : RPCCommandType
  session : Nat
  associatenym : List String
  owner : String
  sendpayment_sourceaccount : String
  acceptpendingpayment : List String
  deriving DecidableEq

/-- One entry of the repeated `task` field of `proto::RPCResponse`. -/
structure RPCTask where
  id : String
  deriving DecidableEq

/-- The fields of `proto::RPCResponse` that `Agent::backend_handler` reads:
the echoed command type, the repeated `status` codes, the repeated
`identifier` list and the repeated `task` list. -/
structure RPCResponse where
  type : RPCCommandType
  status : List RPCResponseCode
  identifier : List String
  task : List RPCTask
  deriving DecidableEq

/-- `proto::RPCPushType` values (`RPCPUSH_TASK` is the one the agent emits). -/
inductive RPCPushType where
  | invalid
  | account
  | contact
  | task
  deriving DecidableEq

/-- The `taskcomplete` submessage of `proto::RPCPush`. -/
structure TaskComplete where
  version : Nat
  id : String
  result : Bool
  deriving DecidableEq

/-- The fields of `proto::RPCPush` the agent reads and writes. -/
structure RPCPush where
  version : Nat
  type : RPCPushType
  id : String
  taskcomplete : TaskComplete
  deriving DecidableEq

/-- In-memory `ptree` configuration plus the INI file written by
`Agent::save_config`: section name to entry name to integer value. -/
structure ConfigStore where
  config : List (String × List (String × Int))
  file : List (String × List (String × Int))
  deriving DecidableEq

/-- The mutable agent state the handlers touch: `task_connection_map_`
(task id to (connection, nym)), `nym_connection_map_` (nym to connection),
the `clients_` and `servers_` atomic counters and the configuration. -/
structure AgentState where
  taskMap : List (String × (String × String))
  nymMap : List (String × String)
  clients : Int
  servers : Int
  store : ConfigStore
  deriving DecidableEq

/-- The engine operations `Agent::backend_handler` invokes:
`ot_.RPC(command)` and
`ot_.Client(idx).Storage().AccountOwner(accountID)->str()`. -/
structure Engine where
  rpc : RPCCommand → RPCResponse
  accountOwner : Nat → String → String

/-- `Agent::associate_nym`: returns unchanged on an empty nym id; otherwise
inserts the (nym, connection) pair only when the nym is absent. -/
def associate_nym (m : List (String × String)) (connection : String)
    (nymID : String) : List (String × String) :=
  if nymID = "" then m
  else
    match mapFind m nymID with
    | some _ => m
    | none => mapEmplace m nymID connection

/-- `Agent::associate_task`: asserts all three arguments non-empty, then
emplaces the task id with its `TaskData{connection, nymID}`. -/
def associate_task (m : List (String × (String × String)))
    (connection : String) (nymID : String) (task : String) :
    Except AgentError (List (String × (String × String))) :=
  if connection = "" then .error (.assertFailed "connection.empty")
  else if nymID = "" then .error (.assertFailed "nymID.empty")
  else if task = "" then .error (.assertFailed "task.empty")
  else .ok (mapEmplace m task (connection, nymID))

/-- Lookup of a (section, entry) pair in a configuration tree. -/
def configFind (m : List (String × List (String × Int))) (section0 : String)
    (entry : String) : Option Int :=
  match mapFind m section0 with
  | none => none
  | some entries => mapFind entries entry

/-- `Agent::save_config`: rewrites the INI file from the in-memory tree. -/
def save_config (st : ConfigStore) : ConfigStore :=
  { st with file := st.config }

/-- `Agent::increment_config_value`: under the config lock, reads the entry
(throwing `ptree_bad_path` when the section or entry is missing),
increments it in memory and calls `save_config` before returning. -/
def increment_config_value (st : ConfigStore) (sectionName : String)
    (entryName : String) : Except AgentError ConfigStore :=
  match mapFind st.config sectionName with
  | none => .error .ptreeBadPath
  | some entries =>
    match mapFind entries entryName with
    | none => .error .ptreeBadPath
    | some value =>
      .ok (save_config
        { st with
          config := mapSet st.config sectionName
            (mapSet entries entryName (value + 1)) })

/-- `Agent::session_to_client_index`: asserts the session number even and
returns `session / 2`. -/
def session_to_client_index (session : Nat) : Except AgentError Nat :=
  if session % 2 = 0 then .ok (session / 2)
  else .error (.assertFailed "session odd")

/-- `Agent::update_clients`: increments the persisted `clients` entry and the
`clients_` counter (the subsequent `schedule_refresh` is an external
effect with no agent state). -/
def update_clients (st : AgentState) : Except AgentError AgentState :=
  match increment_config_value st.store "otagent" "clients" with
  | .error e => .error e
  | .ok store0 => .ok { st with store := store0, clients := st.clients + 1 }

/-- `Agent::update_servers`: increments the persisted `servers` entry and the
`servers_` counter. -/
def update_servers (st : AgentState) : Except AgentError AgentState :=
  match increment_config_value st.store "otagent" "servers" with
  | .error e => .error e
  | .ok store0 => .ok { st with store := store0, servers := st.servers + 1 }

/-- The nym-association loop at the top of `Agent::backend_handler`:
`for (auto nym : command.associatenym()) associate_nym(connectionID, nym)`. -/
def assocNymPhase (st : AgentState) (command : RPCCommand)
    (connectionID : String) : AgentState :=
  { st with
    nymMap := command.associatenym.foldl
      (fun m nym => associate_nym m connectionID nym) st.nymMap }

/-- The `switch (response.type())` of `Agent::backend_handler`: performs the
per-kind side effects and computes `taskNymID` (initially empty). The
guards mirror `0 < response.status_size() && code == response.status(0).code()`
as a match on the head of the status list. -/
def backend_taskNym (eng : Engine) (st : AgentState) (command : RPCCommand)
    (response : RPCResponse) (connectionID : String) :
    Except AgentError (AgentState × String) :=
  match response.type with
  | .addClientSession =>
    if response.status.head? = some .success then
      match update_clients st with
      | .error e => .error e
      | .ok st0 => .ok (st0, "")
    else .ok (st, "")
  | .addServerSession =>
    if response.status.head? = some .success then
      match update_servers st with
      | .error e => .error e
      | .ok st0 => .ok (st0, "")
    else .ok (st, "")
  | .createNym =>
    .ok ({ st with
      nymMap := response.identifier.foldl
        (fun m nymid => associate_nym m connectionID nymid) st.nymMap }, "")
  | .registerNym => .ok (st, command.owner)
  | .issueUnitDefinition => .ok (st, command.owner)
  | .createAccount => .ok (st, command.owner)
  | .createCompatibleAccount => .ok (st, command.owner)
  | .sendPayment =>
    if response.status.head? = some .queued then
      match session_to_client_index command.session with
      | .error e => .error e
      | .ok idx =>
        .ok (st, eng.accountOwner idx command.sendpayment_sourceaccount)
    else .ok (st, "")
  | .acceptPendingPayments =>
    if response.status.head? = some .queued then
      match command.acceptpendingpayment.head? with
      | none => .error .outOfRange
      | some destinationaccount =>
        match session_to_client_index command.session with
        | .error e => .error e
        | .ok idx => .ok (st, eng.accountOwner idx destinationaccount)
    else .ok (st, "")
  | _ => .ok (st, "")

/-- `Agent::backend_handler` at the command level (deserialization of the
wire frames is external): associate the command's explicit nyms, invoke the
engine RPC, run the classification switch, and when the first status is
`QUEUED` and a task entry exists, associate the first task id. Returns the
final state and the response that is serialized into the reply. -/
def backend_handler (eng : Engine) (st : AgentState) (command : RPCCommand)
    (connectionID : String) :
    Except AgentError (AgentState × RPCResponse) :=
  let st1 := assocNymPhase st command connectionID
  let response := eng.rpc command
  match backend_taskNym eng st1 command response connectionID with
  | .error e => .error e
  | .ok (st2, taskNymID) =>
    if response.status.head? = some .queued then
      match response.task with
      | taskEntry :: _ =>
        match associate_task st2.taskMap connectionID taskNymID taskEntry.id with
        | .error e => .error e
        | .ok tm => .ok ({ st2 with taskMap := tm }, response)
      | [] => .ok (st2, response)
    else .ok (st2, response)

/-- A transport message as the handlers see it: routing header frames and
body frames (each frame an opaque byte string). -/
structure ZMQMessage where
  header : List String
  body : List String
  deriving DecidableEq

/-- `Agent::frontend_handler`: asserts a non-empty routing header, drops
empty-body messages, asserts the connection identity frame non-empty, and
otherwise appends a copy of the last header frame (the sender's
ConnectionId) to the body and forwards the message to the internal broker.
`some message` is the forwarded message, `none` is a drop. -/
def frontend_handler (message : ZMQMessage) :
    Except AgentError (Option ZMQMessage) :=
  match message.header.getLast? with
  | none => .error (.assertFailed "0 < size")
  | some identity =>
    if message.body.length = 0 then .ok none
    else if identity = "" then .error (.assertFailed "0 < identity.size")
    else .ok (some { message with body := message.body ++ [identity] })

/-- `Agent::send_task_push`: asserts its arguments non-empty and builds the
outgoing `RPCPush` (version `RPCPUSH_VERSION = 2`, type `RPCPUSH_TASK`,
`id` = the nym, embedded `taskcomplete` with version
`TASKCOMPLETE_VERSION = 1`, the task id and the result), sent on the
frontend to the given connection. The result is the (connection, push)
pair handed to `frontend_->Send`. -/
def send_task_push (connectionID : String) (taskID : String) (nymID : String)
    (result : Bool) : Except AgentError (String × RPCPush) :=
  if connectionID = "" then .error (.assertFailed "connectionID.empty")
  else if taskID = "" then .error (.assertFailed "taskID.empty")
  else if nymID = "" then .error (.assertFailed "nymID.empty")
  else .ok (connectionID,
    { version := 2
      type := .task
      id := nymID
      taskcomplete := { version := 1, id := taskID, result := result } })

/-- `Agent::process_task_push` at the payload level (the frame holds a
serialized `RPCPush`): look up the task id in `task_connection_map_`; when
absent, log and drop (`none` is sent); when present, erase the entry,
assert the stored nym non-empty and send the task push. -/
def process_task_push (st : AgentState) (push : RPCPush) :
    Except AgentError (AgentState × Option (String × RPCPush)) :=
  let taskID := push.taskcomplete.id
  let success := push.taskcomplete.result
  match mapFind st.taskMap taskID with
  | none => .ok (st, none)
  | some (connectionID, nymID) =>
    let st0 := { st with taskMap := mapErase st.taskMap taskID }
    if nymID = "" then .error (.assertFailed "nymID.empty")
    else
      match send_task_push connectionID taskID nymID success with
      | .error e => .error e
      | .ok sent => .ok (st0, some sent)

/-- The ZAP mechanisms of `zap::Mechanism` relevant to the handler. -/
inductive ZapMechanism where
  | null
  | plain
  | curve
  deriving DecidableEq

/-- The ZAP status codes the handler sets. -/
inductive ZapStatus where
  | success
  | authFailure
  deriving DecidableEq

/-- A ZAP request: offered mechanism and credential frames. -/
structure ZapRequest where
  mechanism : ZapMechanism
  credentials : List String
  deriving DecidableEq

/-- A ZAP reply: status code and status text. -/
structure ZapReply where
  code : ZapStatus
  status : String
  deriving DecidableEq

/-- `Agent::zap_handler`: reads `request.Credentials().at(0)` unconditionally
(a throwing access when the credentials list is empty), then answers:
non-Curve mechanism yields `AuthFailure` "Unsupported mechanism"; a
presented key whose Z85 encoding differs from the configured
`client_pubkey_` yields `AuthFailure` "Incorrect pubkey"; otherwise
`Success` "OK". The Z85 encoder is an external parameter. -/
def zap_handler (client_pubkey : String) (z85Encode : String → String)
    (request : ZapRequest) : Except AgentError ZapReply :=
  match request.credentials.head? with
  | none => .error .outOfRange
  | some pubkey =>
    if request.mechanism ≠ ZapMechanism.curve then
      .ok { code := .authFailure, status := "Unsupported mechanism" }
    else if client_pubkey ≠ z85Encode pubkey then
      .ok { code := .authFailure, status := "Incorrect pubkey" }
    else
      .ok { code := .success, status := "OK" }

/-- Concrete engine response for the C2 scenario: an "other" command kind
(ListNyms) whose response nevertheless carries a QUEUED status and a task. -/
def respC2 : RPCResponse :=
  { type := .listNyms, status := [.queued], identifier := [], task := [{ id := "T1" }] }

/-- Concrete engine for the C2 scenario. -/
def engC2 : Engine := { rpc := fun _ => respC2, accountOwner := fun _ _ => "" }

/-- Concrete ListNyms command for the C2 scenario. -/
def cmdC2 : RPCCommand :=
  { type := .listNyms, session := 0, associatenym := [], owner := "",
    sendpayment_sourceaccount := "", acceptpendingpayment := [] }

/-- Fresh agent state for the C2 scenario. -/
def stC2 : AgentState :=
  { taskMap := [], nymMap := [], clients := 0, servers := 0,
    store := { config := [], file := [] } }

/-- Concrete response for the C3 counterexample: QUEUED appears at status
index 1 (not index 0) together with a task entry. -/
def respC3c : RPCResponse :=
  { type := .registerNym, status := [.success, .queued], identifier := [],
    task := [{ id := "T1" }] }

/-- Concrete engine for the C3 counterexample. -/
def engC3c : Engine := { rpc := fun _ => respC3c, accountOwner := fun _ _ => "" }

/-- Concrete RegisterNym command for the C3 counterexample. -/
def cmdC3c : RPCCommand :=
  { type := .registerNym, session := 0, associatenym := [], owner := "N1",
    sendpayment_sourceaccount := "", acceptpendingpayment := [] }

/-- Fresh agent state for the C3 counterexample. -/
def stC3c : AgentState :=
  { taskMap := [], nymMap := [], clients := 0, servers := 0,
    store := { config := [], file := [] } }

/-- Concrete response for the C3 witness: first status QUEUED and one task. -/
def respC3w : RPCResponse :=
  { type := .registerNym, status := [.queued], identifier := [],
    task := [{ id := "T1" }] }

/-- Concrete engine for the C3 witness. -/
def engC3w : Engine := { rpc := fun _ => respC3w, accountOwner := fun _ _ => "" }

/-- Concrete RegisterNym command for the C3 witness. -/
def cmdC3w : RPCCommand :=
  { type := .registerNym, session := 0, associatenym := [], owner := "N1",
    sendpayment_sourceaccount := "", acceptpendingpayment := [] }

/-- Fresh agent state for the C3 witness. -/
def stC3w : AgentState :=
  { taskMap := [], nymMap := [], clients := 0, servers := 0,
    store := { config := [], file := [] } }

/-- Concrete response for the C4 scenario: a CreateNym response that does not
report success yet returns an identifier. -/
def respC4 : RPCResponse :=
  { type := .createNym, status := [.invalid], identifier := ["N1"], task := [] }

/-- Concrete engine for the C4 scenario. -/
def engC4 : Engine := { rpc := fun _ => respC4, accountOwner := fun _ _ => "" }

/-- Concrete CreateNym command for the C4 scenario. -/
def cmdC4 : RPCCommand :=
  { type := .createNym, session := 0, associatenym := [], owner := "",
    sendpayment_sourceaccount := "", acceptpendingpayment := [] }

/-- Fresh agent state for the C4 scenario. -/
def stC4 : AgentState :=
  { taskMap := [], nymMap := [], clients := 0, servers := 0,
    store := { config := [], file := [] } }

theorem mapFind_mapSet_self {α : Type} (m : List (String × α)) (k : String)
    (v : α) : mapFind (mapSet m k v) k = some v := by
  induction m with
  | nil => simp [mapSet, mapFind]
  | cons p rest ih =>
    obtain ⟨k0, v0⟩ := p
    by_cases h : k0 = k
    · simp [mapSet, mapFind, h]
    · simp [mapSet, mapFind, h, ih]

theorem mapFind_associate_nym_mono (m : List (String × String))
    (connection n x c : String) (h : mapFind m x = some c) :
    mapFind (associate_nym m connection n) x = some c := by
  unfold associate_nym
  by_cases hn : n = ""
  · simp [hn, h]
  · rw [if_neg hn]
    cases hfind : mapFind m n with
    | some v => simpa [hfind] using h
    | none =>
      simp only [hfind]
      unfold mapEmplace
      rw [hfind]
      by_cases hx : n = x
      · subst hx
        rw [hfind] at h
        cases h
      · simpa [mapFind, hx] using h

theorem mapFind_associate_nym_self (m : List (String × String))
    (connection x : String) (hx : x ≠ "")
    (hinv : mapFind m x = none ∨ mapFind m x = some connection) :
    mapFind (associate_nym m connection x) x = some connection := by
  unfold associate_nym
  rw [if_neg hx]
  rcases hinv with h | h
  · rw [h]
    unfold mapEmplace
    rw [h]
    simp [mapFind]
  · rw [h]
    exact h

theorem mapFind_associate_nym_same (m : List (String × String))
    (connection n x : String)
    (hinv : mapFind m x = none ∨ mapFind m x = some connection) :
    mapFind (associate_nym m connection n) x = none ∨
      mapFind (associate_nym m connection n) x = some connection := by
  unfold associate_nym
  by_cases hn : n = ""
  · simpa [hn] using hinv
  · rw [if_neg hn]
    cases hfind : mapFind m n with
    | some v => simpa using hinv
    | none =>
      unfold mapEmplace
      rw [hfind]
      by_cases hx : n = x
      · subst hx
        right
        simp [mapFind]
      · simpa [mapFind, hx] using hinv

theorem mapFind_foldl_associate_nym_mono (ids : List String)
    (m : List (String × String)) (connection x c : String)
    (h : mapFind m x = some c) :
    mapFind (ids.foldl (fun m0 n => associate_nym m0 connection n) m) x =
      some c := by
  induction ids generalizing m with
  | nil => simpa using h
  | cons n rest ih =>
    simp only [List.foldl_cons]
    exact ih _ (mapFind_associate_nym_mono m connection n x c h)

theorem mapFind_foldl_associate_nym (ids : List String)
    (m : List (String × String)) (connection x : String) (hx : x ≠ "")
    (hmem : x ∈ ids)
    (hinv : mapFind m x = none ∨ mapFind m x = some connection) :
    mapFind (ids.foldl (fun m0 n => associate_nym m0 connection n) m) x =
      some connection := by
  induction ids generalizing m with
  | nil => cases hmem
  | cons n rest ih =>
    simp only [List.foldl_cons]
    rcases List.mem_cons.mp hmem with hxn | hmem0
    · subst hxn
      exact mapFind_foldl_associate_nym_mono rest _ connection x connection
        (mapFind_associate_nym_self m connection x hx hinv)
    · exact ih _ hmem0 (mapFind_associate_nym_same m connection n x hinv)

theorem update_clients_taskMap (st st0 : AgentState)
    (h : update_clients st = .ok st0) : st0.taskMap = st.taskMap := by
  unfold update_clients at h
  split at h
  · exact absurd h (by simp)
  · simp only [Except.ok.injEq] at h
    subst h
    rfl

theorem update_servers_taskMap (st st0 : AgentState)
    (h : update_servers st = .ok st0) : st0.taskMap = st.taskMap := by
  unfold update_servers at h
  split at h
  · exact absurd h (by simp)
  · simp only [Except.ok.injEq] at h
    subst h
    rfl

theorem backend_taskNym_taskMap (eng : Engine) (st : AgentState)
    (command : RPCCommand) (response : RPCResponse) (connectionID : String)
    (st2 : AgentState) (nym : String)
    (h : backend_taskNym eng st command response connectionID = .ok (st2, nym)) :
    st2.taskMap = st.taskMap := by
  rcases response with ⟨rtype, rstatus, rident, rtask⟩
  cases rtype <;> simp only [backend_taskNym] at h
  case addClientSession =>
    split at h
    · split at h
      · exact absurd h (by simp)
      · next st0 heq =>
          simp only [Except.ok.injEq, Prod.mk.injEq] at h
          rw [← h.1]
          exact update_clients_taskMap st st0 heq
    · simp only [Except.ok.injEq, Prod.mk.injEq] at h
      rw [← h.1]
  case addServerSession =>
    split at h
    · split at h
      · exact absurd h (by simp)
      · next st0 heq =>
          simp only [Except.ok.injEq, Prod.mk.injEq] at h
          rw [← h.1]
          exact update_servers_taskMap st st0 heq
    · simp only [Except.ok.injEq, Prod.mk.injEq] at h
      rw [← h.1]
  case sendPayment =>
    split at h
    · split at h
      · exact absurd h (by simp)
      · simp only [Except.ok.injEq, Prod.mk.injEq] at h
        rw [← h.1]
    · simp only [Except.ok.injEq, Prod.mk.injEq] at h
      rw [← h.1]
  case acceptPendingPayments =>
    split at h
    · split at h
      · exact absurd h (by simp)
      · split at h
        · exact absurd h (by simp)
        · simp only [Except.ok.injEq, Prod.mk.injEq] at h
          rw [← h.1]
    · simp only [Except.ok.injEq, Prod.mk.injEq] at h
      rw [← h.1]
  all_goals
    simp only [Except.ok.injEq, Prod.mk.injEq] at h
  all_goals rw [← h.1]

/-- C1: nym association is first-write-wins. For a non-empty nym n absent
from the table and two distinct connections, once associate_nym has
inserted the mapping for the first connection, a later associate_nym with
the second connection leaves the table unchanged and a lookup of n still
returns the first connection. -/
theorem associate_nym_first_write_wins (m : List (String × String))
    (c1 c2 n : String) (hn : n ≠ "") (_hcc : c1 ≠ c2)
    (habs : mapFind m n = none) :
    associate_nym (associate_nym m c1 n) c2 n = associate_nym m c1 n ∧
      mapFind (associate_nym m c1 n) n = some c1 := by
  have h1 : associate_nym m c1 n = (n, c1) :: m := by
    unfold associate_nym
    rw [if_neg hn, habs]
    unfold mapEmplace
    rw [habs]
  have h2 : mapFind ((n, c1) :: m) n = some c1 := by simp [mapFind]
  refine ⟨?_, by rw [h1]; exact h2⟩
  rw [h1]
  unfold associate_nym
  rw [if_neg hn, h2]

/-- Witness for C1 at a concrete table and connections. -/
theorem associate_nym_first_write_wins_witness :
    associate_nym (associate_nym [] "C1" "N") "C2" "N" =
        associate_nym [] "C1" "N" ∧
      mapFind (associate_nym [] "C1" "N") "N" = some "C1" :=
  associate_nym_first_write_wins [] "C1" "C2" "N" (by decide) (by decide) rfl

/-- C8: for every even session number session_to_client_index returns
session / 2, and for every odd session number its assertion fails. -/
theorem session_to_client_index_spec (session : Nat) :
    (session % 2 = 0 →
      session_to_client_index session = .ok (session / 2)) ∧
      (session % 2 ≠ 0 →
        session_to_client_index session =
          .error (.assertFailed "session odd")) := by
  constructor <;> intro h <;> simp [session_to_client_index, h]

/-- Witness for C8 at the even session 4 and the odd session 3. -/
theorem session_to_client_index_spec_witness :
    session_to_client_index 4 = .ok 2 ∧
      session_to_client_index 3 = .error (.assertFailed "session odd") :=
  ⟨(session_to_client_index_spec 4).1 (by decide),
   (session_to_client_index_spec 3).2 (by decide)⟩

/-- C9: for every section and entry holding an integer value v, increment
succeeds, the in-memory configuration holds v + 1 afterwards, and the file
has been rewritten from the in-memory tree before returning. -/
theorem increment_config_value_spec (st : ConfigStore)
    (sectionName entryName : String) (v : Int)
    (entries : List (String × Int))
    (hsec : mapFind st.config sectionName = some entries)
    (hent : mapFind entries entryName = some v) :
    ∃ st1, increment_config_value st sectionName entryName = .ok st1 ∧
      configFind st1.config sectionName entryName = some (v + 1) ∧
      st1.file = st1.config := by
  refine ⟨save_config
    { st with
      config := mapSet st.config sectionName
        (mapSet entries entryName (v + 1)) }, ?_, ?_, ?_⟩
  · simp only [increment_config_value, hsec, hent]
  · simp [save_config, configFind, mapFind_mapSet_self]
  · rfl

/-- Witness for C9 at a concrete configuration holding clients = 1. -/
theorem increment_config_value_spec_witness :
    ∃ st1, increment_config_value
        { config := [("otagent", [("clients", 1)])], file := [] }
        "otagent" "clients" = .ok st1 ∧
      configFind st1.config "otagent" "clients" = some (1 + 1) ∧
      st1.file = st1.config :=
  increment_config_value_spec
    { config := [("otagent", [("clients", 1)])], file := [] }
    "otagent" "clients" 1 [("clients", 1)] rfl rfl

/-- C10: the ZAP handler reads the first credential unconditionally, so for
every request with an empty credentials list, whatever the offered
mechanism and configured key, it throws instead of replying. -/
theorem zap_handler_empty_credentials_throws (client_pubkey : String)
    (z85Encode : String → String) (mechanism : ZapMechanism) :
    zap_handler client_pubkey z85Encode
      { mechanism := mechanism, credentials := [] } = .error .outOfRange := rfl

/-- C7 counterexample: an authentication request with a non-CurveZMQ
mechanism and an empty credentials list makes the handler throw, so it
does not reply AuthFailure "Unsupported mechanism" as the claim states
for every authentication request. -/
theorem zap_handler_unsupported_mechanism_counterexample :
    zap_handler "K" id { mechanism := .plain, credentials := [] } =
        .error .outOfRange ∧
      zap_handler "K" id { mechanism := .plain, credentials := [] } ≠
        .ok { code := .authFailure, status := "Unsupported mechanism" } := by
  exact ⟨rfl, by simp [zap_handler]⟩

/-- C7 amended: for every authentication request with at least one
credential frame, a non-CurveZMQ mechanism yields AuthFailure
"Unsupported mechanism"; otherwise a presented key whose encoding differs
from the configured client key yields AuthFailure "Incorrect pubkey";
otherwise Success "OK". -/
theorem zap_handler_cases (client_pubkey : String)
    (z85Encode : String → String) (request : ZapRequest) (pubkey : String)
    (hcred : request.credentials.head? = some pubkey) :
    (request.mechanism ≠ ZapMechanism.curve →
      zap_handler client_pubkey z85Encode request =
        .ok { code := .authFailure, status := "Unsupported mechanism" }) ∧
      (request.mechanism = ZapMechanism.curve →
        client_pubkey ≠ z85Encode pubkey →
        zap_handler client_pubkey z85Encode request =
          .ok { code := .authFailure, status := "Incorrect pubkey" }) ∧
      (request.mechanism = ZapMechanism.curve →
        client_pubkey = z85Encode pubkey →
        zap_handler client_pubkey z85Encode request =
          .ok { code := .success, status := "OK" }) := by
  unfold zap_handler
  rw [hcred]
  refine ⟨fun h => by simp [h], fun h1 h2 => by simp [h1, h2],
    fun h1 h2 => by simp [h1, h2]⟩

/-- Witness for C7 at concrete requests hitting all three reply branches
(the external Z85 encoder instantiated as the identity). -/
theorem zap_handler_cases_witness :
    zap_handler "K" id { mechanism := .plain, credentials := ["P"] } =
        .ok { code := .authFailure, status := "Unsupported mechanism" } ∧
      zap_handler "K" id { mechanism := .curve, credentials := ["P"] } =
        .ok { code := .authFailure, status := "Incorrect pubkey" } ∧
      zap_handler "K" id { mechanism := .curve, credentials := ["K"] } =
        .ok { code := .success, status := "OK" } :=
  ⟨(zap_handler_cases "K" id
      { mechanism := .plain, credentials := ["P"] } "P" rfl).1 (by decide),
   (zap_handler_cases "K" id
      { mechanism := .curve, credentials := ["P"] } "P" rfl).2.1 rfl (by decide),
   (zap_handler_cases "K" id
      { mechanism := .curve, credentials := ["K"] } "K" rfl).2.2 rfl rfl⟩

/-- C6: for every frontend message with a routing header whose last frame
(the sender's ConnectionId) is non-empty, a non-empty body is forwarded
with exactly that frame appended — so a one-frame body [command] becomes
[command, connectionId] with frame 1 the ConnectionId — and an empty body
is dropped without being forwarded. -/
theorem frontend_handler_spec (message : ZMQMessage) (identity : String)
    (hid : message.header.getLast? = some identity) (hidne : identity ≠ "") :
    (message.body ≠ [] →
      frontend_handler message =
        .ok (some { message with body := message.body ++ [identity] })) ∧
      (∀ command, message.body = [command] →
        frontend_handler message =
          .ok (some { message with body := [command, identity] })) ∧
      (message.body = [] → frontend_handler message = .ok none) := by
  unfold frontend_handler
  rw [hid]
  refine ⟨fun h => ?_, fun command h => ?_, fun h => ?_⟩
  · simp [h, hidne]
  · simp [h, hidne]
  · simp [h]

/-- Witness for C6 at a concrete one-frame command and at an empty body. -/
theorem frontend_handler_spec_witness :
    frontend_handler { header := ["C"], body := ["cmd"] } =
        .ok (some { header := ["C"], body := ["cmd", "C"] }) ∧
      frontend_handler { header := ["C"], body := [] } = .ok none :=
  ⟨(frontend_handler_spec { header := ["C"], body := ["cmd"] } "C" rfl
      (by decide)).2.1 "cmd" rfl,
   (frontend_handler_spec { header := ["C"], body := [] } "C" rfl
      (by decide)).2.2 rfl⟩

/-- C5: for a task-completion push whose task id is associated (with the
non-empty connection and nym that associate_task asserted), the entry is
removed and exactly one RPCPush of type TASK, version 2, taskcomplete
version 1, id the associated nym, taskcomplete id the task id and result
the push result is sent to the associated connection; for an absent task
id nothing is sent and the task table is unchanged. -/
theorem process_task_push_spec (st : AgentState) (push : RPCPush)
    (connectionID nymID : String) :
    (mapFind st.taskMap push.taskcomplete.id = some (connectionID, nymID) →
      connectionID ≠ "" → nymID ≠ "" → push.taskcomplete.id ≠ "" →
      process_task_push st push =
        .ok ({ st with taskMap := mapErase st.taskMap push.taskcomplete.id },
          some (connectionID,
            { version := 2, type := .task, id := nymID,
              taskcomplete :=
                { version := 1, id := push.taskcomplete.id,
                  result := push.taskcomplete.result } }))) ∧
      (mapFind st.taskMap push.taskcomplete.id = none →
        process_task_push st push = .ok (st, none)) := by
  constructor
  · intro hfind hc hn ht
    simp [process_task_push, hfind, send_task_push, hc, hn, ht]
  · intro hfind
    simp [process_task_push, hfind]

/-- Witness for C5 at a concrete association and at an absent task id. -/
theorem process_task_push_spec_witness :
    process_task_push
        { taskMap := [("T1", ("C", "N"))], nymMap := [], clients := 0,
          servers := 0, store := { config := [], file := [] } }
        { version := 1, type := .task, id := "",
          taskcomplete := { version := 1, id := "T1", result := true } } =
      .ok ({ taskMap := [], nymMap := [], clients := 0, servers := 0,
             store := { config := [], file := [] } },
        some ("C",
          { version := 2, type := .task, id := "N",
            taskcomplete := { version := 1, id := "T1", result := true } })) ∧
      process_task_push
        { taskMap := [], nymMap := [], clients := 0, servers := 0,
          store := { config := [], file := [] } }
        { version := 1, type := .task, id := "",
          taskcomplete := { version := 1, id := "T2", result := false } } =
      .ok ({ taskMap := [], nymMap := [], clients := 0, servers := 0,
             store := { config := [], file := [] } }, none) :=
  ⟨(process_task_push_spec
      { taskMap := [("T1", ("C", "N"))], nymMap := [], clients := 0,
        servers := 0, store := { config := [], file := [] } }
      { version := 1, type := .task, id := "",
        taskcomplete := { version := 1, id := "T1", result := true } }
      "C" "N").1 rfl (by decide) (by decide) (by decide),
   (process_task_push_spec
      { taskMap := [], nymMap := [], clients := 0, servers := 0,
        store := { config := [], file := [] } }
      { version := 1, type := .task, id := "",
        taskcomplete := { version := 1, id := "T2", result := false } }
      "C" "N").2 rfl⟩

/-- C2: evaluation at the failing input. For an "other" command kind
(ListNyms) whose engine response carries a QUEUED first status and a task
entry, the worker handler reaches associate_task with the empty taskNym
and fails its own non-empty-nym assertion instead of leaving the task
table unchanged and returning the reply. -/
theorem backend_handler_other_kind_queued_asserts :
    respC2.status.head? = some RPCResponseCode.queued ∧ respC2.task ≠ [] ∧
      backend_handler engC2 stC2 cmdC2 "C" =
        .error (.assertFailed "nymID.empty") := by
  refine ⟨rfl, by decide, rfl⟩

/-- C3 counterexample: a RegisterNym exchange whose response carries QUEUED
at status index 1 (not index 0) and a task entry records no association:
the handler returns with the task table still empty, because the code
inspects only status(0). -/
theorem backend_handler_second_index_queued_not_recorded :
    RPCResponseCode.queued ∈ respC3c.status ∧ respC3c.task ≠ [] ∧
      backend_handler engC3c stC3c cmdC3c "C" = .ok (stC3c, respC3c) := by
  refine ⟨by decide, by decide, rfl⟩

/-- C3 amended: given the result of the classification phase, the worker
handler records a task association exactly when the status list is
non-empty and its first status (index 0) is QUEUED and at least one task
entry exists; in that case it calls associate_task with the id of the
first task entry, and otherwise the task table is left unchanged. -/
theorem backend_handler_records_task_iff_first_status_queued
    (eng : Engine) (st st2 : AgentState) (command : RPCCommand)
    (connectionID nym : String)
    (hphase : backend_taskNym eng (assocNymPhase st command connectionID)
        command (eng.rpc command) connectionID = .ok (st2, nym)) :
    ((eng.rpc command).status.head? = some RPCResponseCode.queued →
      ∀ taskEntry rest, (eng.rpc command).task = taskEntry :: rest →
        connectionID ≠ "" → nym ≠ "" → taskEntry.id ≠ "" →
        backend_handler eng st command connectionID =
          .ok ({ st2 with
              taskMap :=
                mapEmplace st2.taskMap taskEntry.id (connectionID, nym) },
            eng.rpc command)) ∧
      (((eng.rpc command).status.head? ≠ some RPCResponseCode.queued ∨
          (eng.rpc command).task = []) →
        backend_handler eng st command connectionID =
            .ok (st2, eng.rpc command) ∧
          st2.taskMap = st.taskMap) := by
  have htm : st2.taskMap = st.taskMap :=
    backend_taskNym_taskMap eng (assocNymPhase st command connectionID)
      command (eng.rpc command) connectionID st2 nym hphase
  constructor
  · intro hq taskEntry rest htask hc hn ht
    unfold backend_handler
    dsimp only
    rw [hphase]
    dsimp only
    rw [if_pos hq, htask]
    simp [associate_task, hc, hn, ht]
  · intro hcond
    refine ⟨?_, htm⟩
    unfold backend_handler
    dsimp only
    rw [hphase]
    dsimp only
    rcases hcond with hq | htask
    · rw [if_neg hq]
    · by_cases hq : (eng.rpc command).status.head? = some RPCResponseCode.queued
      · rw [if_pos hq, htask]
      · rw [if_neg hq]

/-- Witness for the amended C3 at a concrete RegisterNym exchange with first
status QUEUED and one task entry: the association is recorded. -/
theorem backend_handler_records_task_iff_first_status_queued_witness :
    backend_handler engC3w stC3w cmdC3w "C" =
      .ok ({ stC3w with taskMap := [("T1", ("C", "N1"))] }, respC3w) :=
  (backend_handler_records_task_iff_first_status_queued engC3w stC3w stC3w
      cmdC3w "C" "N1" rfl).1 rfl { id := "T1" } [] rfl (by decide) (by decide)
    (by decide)

/-- C4 counterexample: a CreateNym response that does not report success
(single status INVALID) yet returns identifier N1 still gets N1
associated with the originating connection. -/
theorem backend_handler_createNym_no_success_check :
    RPCResponseCode.success ∉ respC4.status ∧
      backend_handler engC4 stC4 cmdC4 "C" =
        .ok ({ stC4 with nymMap := [("N1", "C")] }, respC4) := by
  refine ⟨by decide, rfl⟩

/-- C4 amended: when the worker handler processes a CreateNym response it
associates every returned identifier with the originating connection
unconditionally, whether or not the response reports success. -/
theorem backend_handler_createNym_associates_unconditionally
    (eng : Engine) (st : AgentState) (command : RPCCommand)
    (connectionID x : String)
    (htype : (eng.rpc command).type = RPCCommandType.createNym)
    (hnotq : (eng.rpc command).status.head? ≠ some RPCResponseCode.queued ∨
      (eng.rpc command).task = [])
    (hx : x ∈ (eng.rpc command).identifier) (hxne : x ≠ "")
    (hinit : mapFind (assocNymPhase st command connectionID).nymMap x = none ∨
      mapFind (assocNymPhase st command connectionID).nymMap x =
        some connectionID) :
    ∃ st2,
      backend_handler eng st command connectionID =
          .ok (st2, eng.rpc command) ∧
        mapFind st2.nymMap x = some connectionID := by
  have hphase : backend_taskNym eng (assocNymPhase st command connectionID)
      command (eng.rpc command) connectionID =
      .ok ({ assocNymPhase st command connectionID with
        nymMap := (eng.rpc command).identifier.foldl
          (fun m nymid => associate_nym m connectionID nymid)
          (assocNymPhase st command connectionID).nymMap }, "") := by
    unfold backend_taskNym
    rw [htype]
  refine ⟨{ assocNymPhase st command connectionID with
      nymMap := (eng.rpc command).identifier.foldl
        (fun m nymid => associate_nym m connectionID nymid)
        (assocNymPhase st command connectionID).nymMap }, ?_, ?_⟩
  · unfold backend_handler
    dsimp only
    rw [hphase]
    dsimp only
    rcases hnotq with hq | htask
    · rw [if_neg hq]
    · by_cases hq : (eng.rpc command).status.head? = some RPCResponseCode.queued
      · rw [if_pos hq, htask]
      · rw [if_neg hq]
  · exact mapFind_foldl_associate_nym (eng.rpc command).identifier _
      connectionID x hxne hx hinit

/-- Witness for the amended C4 at the concrete non-success CreateNym
response returning identifier N1. -/
theorem backend_handler_createNym_associates_unconditionally_witness :
    ∃ st2,
      backend_handler engC4 stC4 cmdC4 "C" = .ok (st2, engC4.rpc cmdC4) ∧
        mapFind st2.nymMap "N1" = some "C" :=
  backend_handler_createNym_associates_unconditionally engC4 stC4 cmdC4 "C"
    "N1" rfl (.inr rfl) (by decide) (by decide) (.inl rfl)
